import Mathlib

/-!
# Verification of the Autyvia posts-generator session/profile and usage-accounting flow

Shallow embedding of the client logic in `src/contexts/AuthContext.tsx`
(AuthProvider: `loadUserData`, `refreshData`, `signIn`, `signUp`, `signOut`),
the PostGenerator screen (`loadTemplates`, `handleGenerate`) and the Profile
screen (`handleAddService`, `handleRemoveService`, profile `handleSubmit`).

The remote backend (Supabase) is modelled as an explicit `Database` value
holding the rows of the five tables; each `.single()` query is modelled by
`selectSingle`, which succeeds exactly when the filter yields one row,
mirroring PostgREST's behaviour.  Backend write outcomes and the webhook
outcome are passed in as explicit `Except` parameters, since the source
treats them as opaque results; per the supabase-js contract, database
calls return an error value rather than throwing, and a call's error is
only acted upon where the source checks it.
-/

deriving instance DecidableEq for Except

/-- Row of the `user` table (interface `User` in AuthContext.tsx). -/
structure User where
  id : String
  email : String
  first_name : String
  last_name : String
  role : String
  company_id : String
deriving Repr, DecidableEq

/-- Row of the `company` table (interface `Company` in AuthContext.tsx). -/
structure Company where
  id : String
  name : String
  business_sector : String
  services : List String
  target_audience : String
  brand_colors : List String
  logo_url : Option String
  tone_of_voice : String
  visual_style : String
deriving Repr, DecidableEq

/-- Row of the `pack` table (interface `Pack` in AuthContext.tsx).
`monthly_posts_limit` and `posts_used` are integers `≥ 0` per the data model. -/
structure Pack where
  id : String
  company_id : String
  pack_type : String
  monthly_posts_limit : Nat
  posts_used : Nat
  price : Nat
  status : String
deriving Repr, DecidableEq

/-- Row of the `template` table (interface `Template` in PostGenerator plus the
`is_active` column that the `loadTemplates` query filters on). -/
structure Template where
  id : String
  name : String
  category : String
  prompt_base : String
  thumbnail_url : Option String
  works_best_for : List String
  platforms : List String
  formats : List String
  is_active : Bool
deriving Repr, DecidableEq

/-- Row of the `generated_post` table, exactly the fields of the insert payload
in `handleGenerate` (the backend-assigned id is never read back there). -/
structure GeneratedPostRow where
  company_id : String
  platform : String
  format : String
  template_id : String
  user_suggestions : String
  image_url : String
  caption_text : String
  hashtags : List String
  created_at : String
deriving Repr, DecidableEq

/-- The backend database: the five tables the client reads and writes. -/
structure Database where
  users : List User
  companies : List Company
  packs : List Pack
  templates : List Template
  generated_posts : List GeneratedPostRow
deriving Repr, DecidableEq

/-- A supabase `.select(...).single()` query: succeeds exactly when the filter
matches one row, errors on zero or several rows. -/
def selectSingle {α : Type} (p : α → Bool) (rows : List α) : Except String α :=
  match rows.filter p with
  | [a] => Except.ok a
  | _ => Except.error "not a single row"

/-- Query `supabase.from('user').select('*').eq('id', userId).single()`. -/
def findUser (db : Database) (userId : String) : Except String User :=
  selectSingle (fun u => u.id == userId) db.users

/-- Query `supabase.from('company').select('*').eq('id', companyId).single()`. -/
def findCompany (db : Database) (companyId : String) : Except String Company :=
  selectSingle (fun c => c.id == companyId) db.companies

/-- Query `supabase.from('pack').select('*').eq('company_id', cid).eq('status','active').single()`. -/
def findActivePack (db : Database) (companyId : String) : Except String Pack :=
  selectSingle (fun p => p.company_id == companyId && p.status == "active") db.packs

/-- Client-side context state held by `AuthProvider`. -/
structure CtxState where
  user : Option User
  company : Option Company
  pack : Option Pack
  loading : Bool
deriving Repr, DecidableEq

/-- Function `loadUserData` of AuthContext.tsx.  Sequential user → company → pack-attempt
chain; a thrown error is caught (the returned `Bool` is `true` exactly when the
catch branch logs an error) and the `finally` clears the loading flag.  A failed
active-pack lookup is not thrown: the source only acts `if (!packError && packData)`.
The truthiness test `if (userData.company_id)` is false exactly for the empty
string. -/
def loadUserData (db : Database) (s : CtxState) (userId : String) : CtxState × Bool :=
  match findUser db userId with
  | Except.error _ => ({ s with loading := false }, true)
  | Except.ok userData =>
    let s1 := { s with user := some userData }
    if userData.company_id = "" then
      ({ s1 with loading := false }, false)
    else
      match findCompany db userData.company_id with
      | Except.error _ => ({ s1 with loading := false }, true)
      | Except.ok companyData =>
        let s2 := { s1 with company := some companyData }
        match findActivePack db userData.company_id with
        | Except.ok packData => ({ s2 with pack := some packData, loading := false }, false)
        | Except.error _ => ({ s2 with loading := false }, false)

/-- Function `refreshData` of AuthContext.tsx: re-run the load chain for the signed-in
user, no-op when signed out. -/
def refreshData (db : Database) (s : CtxState) : CtxState :=
  match s.user with
  | some u => (loadUserData db s u.id).fst
  | none => s

/-- The user object returned by the backend auth subsystem. -/
structure AuthUser where
  id : String
deriving Repr, DecidableEq

/-- Function `signIn` of AuthContext.tsx.  Here `auth` models `supabase.auth.signInWithPassword`:
on error the error is rethrown unchanged (the state component stays `s`); on
success the load chain runs immediately, before the promise resolves. -/
def signIn (auth : String → String → Except String AuthUser) (db : Database)
    (s : CtxState) (email password : String) : CtxState × Except String Unit :=
  match auth email password with
  | Except.error e => (s, Except.error e)
  | Except.ok au => ((loadUserData db s au.id).fst, Except.ok ())

/-- Network operations issued by `signUp`, in order.  `deleteAuthIdentity` is
the (never issued) compensating rollback of step (a). -/
inductive SignUpOp where
  | createAuthIdentity (email : String)
  | insertCompanyRow (name business_sector : String) (services : List String)
      (target_audience : String) (brand_colors : List String)
      (tone_of_voice visual_style : String)
  | insertUserRow (u : User)
  | deleteAuthIdentity
  | loadChain (userId : String)
deriving Repr, DecidableEq

/-- The company row created by `signUp` step 2: the given name plus empty
defaults, exactly the insert payload in AuthContext.tsx (no `logo_url`). -/
def mkNewCompany (cid companyName : String) : Company :=
  ⟨cid, companyName, "", [], "", [], none, "", ""⟩

/-- Function `signUp` of AuthContext.tsx.  Here `authRes` models `supabase.auth.signUp`
(`Except.ok none` is the `data.user == null` case), `companyInsertRes` the
company insert (on success the backend-assigned row id), `userInsertRes` the
user insert.  Returns the issued network operations in order, the updated
backend, the context state, and the promise outcome (a thrown error leaves the
context state untouched). -/
def signUp (db : Database) (s : CtxState)
    (authRes : Except String (Option AuthUser))
    (companyInsertRes : Except String String)
    (userInsertRes : Except String Unit)
    (email _password firstName lastName companyName : String) :
    List SignUpOp × Database × CtxState × Except String Unit :=
  match authRes with
  | Except.error e => ([SignUpOp.createAuthIdentity email], db, s, Except.error e)
  | Except.ok none =>
    ([SignUpOp.createAuthIdentity email], db, s,
     Except.error "No user returned from signup")
  | Except.ok (some au) =>
    let ops1 := [SignUpOp.createAuthIdentity email,
                 SignUpOp.insertCompanyRow companyName "" [] "" [] "" ""]
    match companyInsertRes with
    | Except.error e => (ops1, db, s, Except.error e)
    | Except.ok cid =>
      let newCompany := mkNewCompany cid companyName
      let db1 := { db with companies := db.companies ++ [newCompany] }
      let newUser : User := ⟨au.id, email, firstName, lastName, "user", cid⟩
      let ops2 := ops1 ++ [SignUpOp.insertUserRow newUser]
      match userInsertRes with
      | Except.error e => (ops2, db1, s, Except.error e)
      | Except.ok _ =>
        let db2 := { db1 with users := db1.users ++ [newUser] }
        (ops2 ++ [SignUpOp.loadChain au.id], db2,
         (loadUserData db2 s au.id).fst, Except.ok ())

/-- The single network operation issued by `signOut`. -/
inductive SignOutOp where
  | invalidateSession
deriving Repr, DecidableEq

/-- Function `signOut` of AuthContext.tsx: issue the backend session invalidation, then
clear user, company and pack.  `backendOk` is the invalidation outcome; the
source never reads it (supabase returns the error, the call result is
discarded), so the clearing happens regardless. -/
def signOut (s : CtxState) (_backendOk : Bool) : List SignOutOp × CtxState :=
  ([SignOutOp.invalidateSession],
   { s with user := none, company := none, pack := none })

/-- Function `loadTemplates` of PostGenerator:
`.eq('is_active', true).contains('platforms', [platform]).contains('formats', [format])`. -/
def loadTemplates (db : Database) (platform format : String) : List Template :=
  db.templates.filter
    (fun t => t.is_active && t.platforms.contains platform && t.formats.contains format)

/-- The webhook response body used by `handleGenerate`. -/
structure WebhookData where
  image_url : String
  caption : String
  hashtags : List String
deriving Repr, DecidableEq

/-- The webhook request body built in `handleGenerate`. -/
structure WebhookPayload where
  company_id : String
  company_name : String
  business_sector : String
  services : List String
  target_audience : String
  brand_colors : List String
  tone_of_voice : String
  visual_style : String
  platform : String
  format : String
  template_id : String
  template_name : String
  prompt_base : String
  user_suggestions : String
deriving Repr, DecidableEq

def mkWebhookPayload (c : Company) (t : Template)
    (platform format userSuggestions : String) : WebhookPayload :=
  ⟨c.id, c.name, c.business_sector, c.services, c.target_audience, c.brand_colors,
   c.tone_of_voice, c.visual_style, platform, format, t.id, t.name, t.prompt_base,
   userSuggestions⟩

/-- The `generated_post` insert payload built in `handleGenerate` from the
webhook response. -/
def mkGeneratedPostRow (c : Company) (t : Template)
    (platform format userSuggestions : String) (d : WebhookData)
    (createdAt : String) : GeneratedPostRow :=
  ⟨c.id, platform, format, t.id, userSuggestions, d.image_url, d.caption,
   d.hashtags, createdAt⟩

/-- Network operations issued by `handleGenerate`, in order. -/
inductive GenOp where
  | webhookCall (payload : WebhookPayload)
  | insertPost (row : GeneratedPostRow)
  | updatePack (packId : String) (posts_used : Nat)
deriving Repr, DecidableEq

/-- Update `supabase.from('pack').update(..).eq('id', packId)` applied to
the backend (only when the backend accepts the write). -/
def applyPackUpdate (db : Database) (packId : String) (newUsed : Nat) : Database :=
  { db with packs :=
      db.packs.map (fun p => if p.id == packId then { p with posts_used := newUsed } else p) }

/-- Outcome of one `handleGenerate` run: the network operations issued (in
order), the resulting backend, whether the monthly-limit alert was shown,
whether the generic failure alert was shown, and the `generatedPost` component
state. -/
structure GenResult where
  ops : List GenOp
  db : Database
  limitAlert : Bool
  errorAlert : Bool
  generatedPost : Option WebhookData
deriving Repr, DecidableEq

/-- Body of the `try` block of `handleGenerate`, after the guard and quota
check.  `webhookRes` is the webhook call outcome (non-2xx or malformed response
is a failure), `insertRes` the `generated_post` insert outcome, `updateRes` the
`posts_used` update outcome.  The source checks `insertError` and throws it,
but discards the update call's result entirely, so a failed update neither
throws nor alerts. -/
def generateAfterChecks (db : Database) (c : Company) (t : Template)
    (pack : Option Pack) (platform format userSuggestions createdAt : String)
    (webhookRes : Except Unit WebhookData) (insertRes : Except String Unit)
    (updateRes : Except String Unit) : GenResult :=
  let payload := mkWebhookPayload c t platform format userSuggestions
  match webhookRes with
  | Except.error _ => ⟨[GenOp.webhookCall payload], db, false, true, none⟩
  | Except.ok d =>
    let row := mkGeneratedPostRow c t platform format userSuggestions d createdAt
    match insertRes with
    | Except.error _ =>
      ⟨[GenOp.webhookCall payload, GenOp.insertPost row], db, false, true, none⟩
    | Except.ok _ =>
      let db1 := { db with generated_posts := db.generated_posts ++ [row] }
      match pack with
      | some p =>
        let db2 := match updateRes with
          | Except.ok _ => applyPackUpdate db1 p.id (p.posts_used + 1)
          | Except.error _ => db1
        ⟨[GenOp.webhookCall payload, GenOp.insertPost row,
          GenOp.updatePack p.id (p.posts_used + 1)], db2, false, false, some d⟩
      | none =>
        ⟨[GenOp.webhookCall payload, GenOp.insertPost row], db1, false, false, some d⟩

/-- Function `handleGenerate` of PostGenerator.  The first guard
(`!company?.id || !selectedTemplate`) returns silently; the quota check
(`pack && pack.posts_used >= pack.monthly_posts_limit`) alerts and returns
before any network call. -/
def handleGenerate (db : Database) (company : Option Company)
    (selectedTemplate : Option Template) (pack : Option Pack)
    (platform format userSuggestions createdAt : String)
    (webhookRes : Except Unit WebhookData) (insertRes : Except String Unit)
    (updateRes : Except String Unit) : GenResult :=
  match company, selectedTemplate with
  | some c, some t =>
    if c.id = "" then ⟨[], db, false, false, none⟩
    else
      match pack with
      | some p =>
        if p.monthly_posts_limit ≤ p.posts_used then
          ⟨[], db, true, false, none⟩
        else
          generateAfterChecks db c t (some p) platform format userSuggestions
            createdAt webhookRes insertRes updateRes
      | none =>
        generateAfterChecks db c t none platform format userSuggestions
          createdAt webhookRes insertRes updateRes
  | _, _ => ⟨[], db, false, false, none⟩

/-- JavaScript `String.prototype.trim()`: drop leading and trailing
whitespace. -/
def jsTrim (s : String) : String :=
  String.mk ((s.data.dropWhile Char.isWhitespace).reverse.dropWhile
    Char.isWhitespace).reverse

/-- Function `handleAddService` of the Profile screen: append the trimmed service name
unless it is empty after trimming or already present. -/
def handleAddService (services : List String) (newService : String) : List String :=
  if jsTrim newService ≠ "" ∧ jsTrim newService ∉ services then
    services ++ [jsTrim newService]
  else services

/-- Function `handleRemoveService` of the Profile screen. -/
def handleRemoveService (services : List String) (serviceToRemove : String) : List String :=
  services.filter (fun s => s != serviceToRemove)

/-- The full-replace company update issued by the Profile screen's
`handleSubmit` (`logo_url: logoUrl || null` maps the empty string to null). -/
def profileUpdateCompany (name businessSector : String) (services : List String)
    (targetAudience : String) (brandColors : List String)
    (logoUrl toneOfVoice visualStyle : String) (c : Company) : Company :=
  { c with
    name := name
    business_sector := businessSector
    services := services
    target_audience := targetAudience
    brand_colors := brandColors
    logo_url := if logoUrl = "" then none else some logoUrl
    tone_of_voice := toneOfVoice
    visual_style := visualStyle }

/-- Update `supabase.from('company').update(..).eq('id', companyId)` as issued by
the Profile screen's `handleSubmit`, applied to the backend. -/
def profileSubmitUpdate (db : Database) (companyId : String)
    (name businessSector : String) (services : List String)
    (targetAudience : String) (brandColors : List String)
    (logoUrl toneOfVoice visualStyle : String) : Database :=
  { db with companies :=
      db.companies.map (fun c =>
        if c.id == companyId then
          profileUpdateCompany name businessSector services targetAudience
            brandColors logoUrl toneOfVoice visualStyle c
        else c) }

/-! ## Helper lemmas -/

theorem selectSingle_ok_sat {α : Type} {p : α → Bool} {l : List α} {a : α}
    (h : selectSingle p l = Except.ok a) : p a = true := by
  unfold selectSingle at h
  split at h
  · rename_i heq
    cases h
    have ha : a ∈ List.filter p l := by
      rw [heq]; exact List.mem_singleton.mpr rfl
    exact List.of_mem_filter ha
  · cases h

theorem findUser_ok_id {db : Database} {uid : String} {u : User}
    (h : findUser db uid = Except.ok u) : u.id = uid := by
  have := selectSingle_ok_sat h
  simpa using this

theorem selectSingle_append_new {α : Type} (p : α → Bool) (l : List α) (a : α)
    (hl : l.filter p = []) (ha : p a = true) :
    selectSingle p (l ++ [a]) = Except.ok a := by
  unfold selectSingle
  rw [List.filter_append, hl, List.nil_append]
  simp [List.filter, ha]

/-! ## Claim theorems -/

/-- C6: `signOut` issues the backend session invalidation first and then clears
User, Company and Pack from local state, regardless of the backend outcome
(the `backendOk` flag has no effect on the result). -/
theorem signOut_invalidates_then_clears (s : CtxState) (backendOk : Bool) :
    signOut s backendOk =
      ([SignOutOp.invalidateSession],
       { user := none, company := none, pack := none, loading := s.loading }) := by
  rfl

/-- C8 counterexample: an inactive template whose `platforms` contain
`instagram` and whose `formats` contain `story` is in the template table but is
not listed by the template-selection query, refuting that every template
carrying both tags is listed. -/
theorem loadTemplates_inactive_excluded_cex :
    (⟨"t9", "Promo", "promo", "bp", none, [], ["instagram"], ["story"], false⟩ : Template)
        ∈ (⟨[], [], [], [⟨"t9", "Promo", "promo", "bp", none, [], ["instagram"], ["story"], false⟩], []⟩ : Database).templates ∧
    "instagram" ∈ (⟨"t9", "Promo", "promo", "bp", none, [], ["instagram"], ["story"], false⟩ : Template).platforms ∧
    "story" ∈ (⟨"t9", "Promo", "promo", "bp", none, [], ["instagram"], ["story"], false⟩ : Template).formats ∧
    (⟨"t9", "Promo", "promo", "bp", none, [], ["instagram"], ["story"], false⟩ : Template)
        ∉ loadTemplates ⟨[], [], [], [⟨"t9", "Promo", "promo", "bp", none, [], ["instagram"], ["story"], false⟩], []⟩ "instagram" "story" := by
  decide

/-- C8 (amended): for every chosen platform and format, the template-selection
step lists exactly the templates that are active (`is_active = true`) and whose
`platforms` tag set contains the platform and whose `formats` tag set contains
the format. -/
theorem loadTemplates_lists_exactly (db : Database) (platform format : String)
    (t : Template) :
    t ∈ loadTemplates db platform format ↔
      t ∈ db.templates ∧ t.is_active = true ∧
      t.platforms.contains platform = true ∧ t.formats.contains format = true := by
  simp [loadTemplates, List.mem_filter, and_assoc]

/-- Witness for the amended C8 theorem at a concrete active template. -/
theorem loadTemplates_lists_exactly_witness :
    (⟨"t8", "Promo", "promo", "bp", none, [], ["instagram"], ["story"], true⟩ : Template)
        ∈ loadTemplates ⟨[], [], [], [⟨"t8", "Promo", "promo", "bp", none, [], ["instagram"], ["story"], true⟩], []⟩ "instagram" "story" :=
  (loadTemplates_lists_exactly
      ⟨[], [], [], [⟨"t8", "Promo", "promo", "bp", none, [], ["instagram"], ["story"], true⟩], []⟩
      "instagram" "story" _).mpr (by decide)

/-- C10: for a generation attempt with no Pack loaded, no quota precondition is
checked and no `posts_used` update is issued: the webhook is invoked, the
`generated_post` row is inserted, the backend's packs are untouched and the
trace carries no pack-update operation, whatever the update outcome parameter. -/
theorem handleGenerate_no_pack_unlimited (db : Database) (c : Company)
    (t : Template) (platform format sugg ts : String) (d : WebhookData)
    (updateRes : Except String Unit) (hc : c.id ≠ "") :
    handleGenerate db (some c) (some t) none platform format sugg ts
        (Except.ok d) (Except.ok ()) updateRes =
      ⟨[GenOp.webhookCall (mkWebhookPayload c t platform format sugg),
        GenOp.insertPost (mkGeneratedPostRow c t platform format sugg d ts)],
       { db with generated_posts :=
           db.generated_posts ++ [mkGeneratedPostRow c t platform format sugg d ts] },
       false, false, some d⟩ := by
  simp [handleGenerate, generateAfterChecks, hc]

/-- Shared concrete sample data for witnesses. -/
def sampleUser : User := ⟨"u1", "a@b.co", "Ana", "Ben", "user", "c1"⟩

def sampleCompany : Company :=
  ⟨"c1", "Spa Zen", "spa-beaute", ["Massage", "Facial"], "aud",
   ["#000000", "#ffffff"], none, "pro", "minimal"⟩

def samplePack : Pack := ⟨"p1", "c1", "essential", 30, 29, 49, "active"⟩

def sampleTemplate : Template :=
  ⟨"t1", "Promo", "promo", "base prompt", none, ["spa-beaute"], ["instagram"],
   ["story"], true⟩

def sampleDb : Database :=
  ⟨[sampleUser], [sampleCompany], [samplePack], [sampleTemplate], []⟩

def sampleData : WebhookData := ⟨"img.png", "great caption", ["spa", "zen"]⟩

def sampleCtx : CtxState := ⟨none, none, none, true⟩

/-- Witness for the C10 theorem at concrete inputs. -/
theorem handleGenerate_no_pack_unlimited_witness :
    handleGenerate sampleDb (some sampleCompany) (some sampleTemplate) none
        "instagram" "story" "" "2026-01-01" (Except.ok sampleData)
        (Except.ok ()) (Except.error "update refused") =
      ⟨[GenOp.webhookCall (mkWebhookPayload sampleCompany sampleTemplate "instagram" "story" ""),
        GenOp.insertPost (mkGeneratedPostRow sampleCompany sampleTemplate "instagram" "story" "" sampleData "2026-01-01")],
       { sampleDb with generated_posts :=
           sampleDb.generated_posts ++
             [mkGeneratedPostRow sampleCompany sampleTemplate "instagram" "story" "" sampleData "2026-01-01"] },
       false, false, some sampleData⟩ :=
  handleGenerate_no_pack_unlimited sampleDb sampleCompany sampleTemplate
    "instagram" "story" "" "2026-01-01" sampleData (Except.error "update refused")
    (by decide)

theorem applyPackUpdate_posts_used (db : Database) (packId : String) (n : Nat) :
    ∀ q ∈ (applyPackUpdate db packId n).packs, q.id = packId → q.posts_used = n := by
  intro q hq hid
  simp only [applyPackUpdate, List.mem_map] at hq
  obtain ⟨x, _, hfx⟩ := hq
  by_cases h : x.id == packId
  · rw [if_pos h] at hfx
    rw [← hfx]
  · rw [if_neg h] at hfx
    subst hfx
    exact absurd (by simpa using hid) (by simpa using h)

/-- C1: quota boundary for a generation attempt with a Pack loaded.
If `posts_used ≥ monthly_posts_limit` the attempt is rejected before any
network call (empty operation trace), the backend is unchanged and no post
is produced.  If `posts_used = monthly_posts_limit - 1` (the guard passes)
and the webhook call and the insert succeed, the update call carries exactly
`posts_used + 1 = monthly_posts_limit` and every pack row with that id ends
with `posts_used = monthly_posts_limit`. -/
theorem handleGenerate_quota_boundary (db : Database) (company : Option Company)
    (tm : Option Template) (p : Pack) (platform format sugg ts : String)
    (webhookRes : Except Unit WebhookData) (insertRes updateRes : Except String Unit) :
    (p.monthly_posts_limit ≤ p.posts_used →
      (handleGenerate db company tm (some p) platform format sugg ts webhookRes
          insertRes updateRes).ops = [] ∧
      (handleGenerate db company tm (some p) platform format sugg ts webhookRes
          insertRes updateRes).db = db ∧
      (handleGenerate db company tm (some p) platform format sugg ts webhookRes
          insertRes updateRes).generatedPost = none) ∧
    (∀ (c : Company) (t : Template) (d : WebhookData),
      company = some c → tm = some t → c.id ≠ "" →
      p.posts_used + 1 = p.monthly_posts_limit →
      webhookRes = Except.ok d → insertRes = Except.ok () →
      updateRes = Except.ok () →
      (handleGenerate db company tm (some p) platform format sugg ts webhookRes
          insertRes updateRes).ops =
        [GenOp.webhookCall (mkWebhookPayload c t platform format sugg),
         GenOp.insertPost (mkGeneratedPostRow c t platform format sugg d ts),
         GenOp.updatePack p.id p.monthly_posts_limit] ∧
      ∀ q ∈ (handleGenerate db company tm (some p) platform format sugg ts
          webhookRes insertRes updateRes).db.packs,
        q.id = p.id → q.posts_used = p.monthly_posts_limit) := by
  constructor
  · intro hle
    match company, tm with
    | none, _ => simp [handleGenerate]
    | some c, none => simp [handleGenerate]
    | some c, some t =>
      by_cases hid : c.id = "" <;> simp [handleGenerate, hid, hle]
  · rintro c t d rfl rfl hid hnext rfl rfl rfl
    have hlt : ¬ p.monthly_posts_limit ≤ p.posts_used := by omega
    constructor
    · simp [handleGenerate, hid, hlt, generateAfterChecks, hnext]
    · intro q hq hqid
      have hq' : q ∈ (applyPackUpdate
          { db with generated_posts :=
              db.generated_posts ++ [mkGeneratedPostRow c t platform format sugg d ts] }
          p.id (p.posts_used + 1)).packs := by
        simpa [handleGenerate, hid, hlt, generateAfterChecks] using hq
      have := applyPackUpdate_posts_used
        { db with generated_posts :=
            db.generated_posts ++ [mkGeneratedPostRow c t platform format sugg d ts] }
        p.id (p.posts_used + 1) q hq' hqid
      omega

/-- Witness for the C1 theorem: rejection at `posts_used = limit` and the exact
update at `posts_used = limit - 1`, on concrete data. -/
theorem handleGenerate_quota_boundary_witness :
    (handleGenerate sampleDb (some sampleCompany) (some sampleTemplate)
        (some ⟨"p1", "c1", "essential", 30, 30, 49, "active"⟩) "instagram" "story"
        "" "2026-01-01" (Except.ok sampleData) (Except.ok ()) (Except.ok ())).ops = [] ∧
    (handleGenerate sampleDb (some sampleCompany) (some sampleTemplate)
        (some samplePack) "instagram" "story" "" "2026-01-01"
        (Except.ok sampleData) (Except.ok ()) (Except.ok ())).ops =
      [GenOp.webhookCall (mkWebhookPayload sampleCompany sampleTemplate "instagram" "story" ""),
       GenOp.insertPost (mkGeneratedPostRow sampleCompany sampleTemplate "instagram" "story" "" sampleData "2026-01-01"),
       GenOp.updatePack "p1" 30] :=
  ⟨((handleGenerate_quota_boundary sampleDb (some sampleCompany)
      (some sampleTemplate) ⟨"p1", "c1", "essential", 30, 30, 49, "active"⟩
      "instagram" "story" "" "2026-01-01" (Except.ok sampleData) (Except.ok ())
      (Except.ok ())).1 (by decide)).1,
   ((handleGenerate_quota_boundary sampleDb (some sampleCompany)
      (some sampleTemplate) samplePack "instagram" "story" "" "2026-01-01"
      (Except.ok sampleData) (Except.ok ()) (Except.ok ())).2 sampleCompany
      sampleTemplate sampleData rfl rfl (by decide) (by decide) rfl rfl rfl).1⟩

/-- C2 counterexample: with the webhook call and the `generated_post` insert
both succeeding and the step-4 `posts_used` update failing, no failure notice
is surfaced — the update call's error result is discarded by the source — and
the flow completes as a success, contradicting the claim that any failure in
steps 2–4 surfaces a generic failure notice. -/
theorem handleGenerate_update_failure_silent_cex :
    (handleGenerate sampleDb (some sampleCompany) (some sampleTemplate)
        (some samplePack) "instagram" "story" "" "2026-01-01"
        (Except.ok sampleData) (Except.ok ())
        (Except.error "update failed")).errorAlert = false ∧
    (handleGenerate sampleDb (some sampleCompany) (some sampleTemplate)
        (some samplePack) "instagram" "story" "" "2026-01-01"
        (Except.ok sampleData) (Except.ok ())
        (Except.error "update failed")).generatedPost = some sampleData := by
  decide

/-- C2 (amended): a failure of step 2 (webhook) or step 3 (insert) surfaces the
generic failure notice and leaves the backend unchanged; a failure of step 4
(`posts_used` update) surfaces no notice — its error result is ignored and the
flow completes as a success — leaving the inserted row in place and the pack
rows (hence `posts_used`) unchanged, i.e. under-counted; in no case is a
compensating rollback of an already-completed step performed. -/
theorem handleGenerate_failure_semantics (db : Database) (c : Company)
    (t : Template) (pk : Option Pack) (platform format sugg ts : String)
    (d : WebhookData) (insertRes updateRes : Except String Unit) (e1 e2 : String)
    (hid : c.id ≠ "")
    (hq : ∀ p, pk = some p → p.posts_used < p.monthly_posts_limit) :
    ((handleGenerate db (some c) (some t) pk platform format sugg ts
        (Except.error ()) insertRes updateRes).errorAlert = true ∧
     (handleGenerate db (some c) (some t) pk platform format sugg ts
        (Except.error ()) insertRes updateRes).db = db) ∧
    ((handleGenerate db (some c) (some t) pk platform format sugg ts
        (Except.ok d) (Except.error e1) updateRes).errorAlert = true ∧
     (handleGenerate db (some c) (some t) pk platform format sugg ts
        (Except.ok d) (Except.error e1) updateRes).db = db) ∧
    (∀ p, pk = some p →
      (handleGenerate db (some c) (some t) pk platform format sugg ts
          (Except.ok d) (Except.ok ()) (Except.error e2)).errorAlert = false ∧
      (handleGenerate db (some c) (some t) pk platform format sugg ts
          (Except.ok d) (Except.ok ()) (Except.error e2)).generatedPost = some d ∧
      (handleGenerate db (some c) (some t) pk platform format sugg ts
          (Except.ok d) (Except.ok ()) (Except.error e2)).db.generated_posts =
        db.generated_posts ++ [mkGeneratedPostRow c t platform format sugg d ts] ∧
      (handleGenerate db (some c) (some t) pk platform format sugg ts
          (Except.ok d) (Except.ok ()) (Except.error e2)).db.packs = db.packs) := by
  refine ⟨?_, ?_, ?_⟩
  · match pk with
    | none => simp [handleGenerate, hid, generateAfterChecks]
    | some p =>
      have := hq p rfl
      have hlt : ¬ p.monthly_posts_limit ≤ p.posts_used := by omega
      simp [handleGenerate, hid, hlt, generateAfterChecks]
  · match pk with
    | none => simp [handleGenerate, hid, generateAfterChecks]
    | some p =>
      have := hq p rfl
      have hlt : ¬ p.monthly_posts_limit ≤ p.posts_used := by omega
      simp [handleGenerate, hid, hlt, generateAfterChecks]
  · rintro p rfl
    have := hq p rfl
    have hlt : ¬ p.monthly_posts_limit ≤ p.posts_used := by omega
    simp [handleGenerate, hid, hlt, generateAfterChecks]

/-- Witness for the amended C2 theorem on concrete data. -/
theorem handleGenerate_failure_semantics_witness :
    (handleGenerate sampleDb (some sampleCompany) (some sampleTemplate)
        (some samplePack) "instagram" "story" "" "2026-01-01"
        (Except.error ()) (Except.ok ()) (Except.ok ())).errorAlert = true ∧
    (handleGenerate sampleDb (some sampleCompany) (some sampleTemplate)
        (some samplePack) "instagram" "story" "" "2026-01-01"
        (Except.ok sampleData) (Except.ok ()) (Except.error "upd")).db.packs =
      sampleDb.packs :=
  ⟨(handleGenerate_failure_semantics sampleDb sampleCompany sampleTemplate
      (some samplePack) "instagram" "story" "" "2026-01-01" sampleData
      (Except.ok ()) (Except.ok ()) "e1" "upd" (by decide)
      (by intro p hp; cases hp; decide)).1.1,
   ((handleGenerate_failure_semantics sampleDb sampleCompany sampleTemplate
      (some samplePack) "instagram" "story" "" "2026-01-01" sampleData
      (Except.ok ()) (Except.ok ()) "e1" "upd" (by decide)
      (by intro p hp; cases hp; decide)).2.2 samplePack rfl).2.2.2⟩

/-- C5: for a load-chain run over a company with no `active` pack row, the
failed pack lookup is absorbed silently: the pack field stays empty, the error
flag is not raised, the loading flag is cleared and User and Company are
populated. -/
theorem loadUserData_no_active_pack (db : Database) (s : CtxState) (uid : String)
    (u : User) (c : Company)
    (hu : findUser db uid = Except.ok u)
    (hcid : u.company_id ≠ "")
    (hc : findCompany db u.company_id = Except.ok c)
    (hp : db.packs.filter
        (fun q => q.company_id == u.company_id && q.status == "active") = [])
    (hpk : s.pack = none) :
    loadUserData db s uid =
      ({ user := some u, company := some c, pack := none, loading := false }, false) := by
  have hpa : findActivePack db u.company_id = Except.error "not a single row" := by
    unfold findActivePack selectSingle
    rw [hp]
  cases s
  simp_all [loadUserData, hu, hcid, hc, hpa]

/-- Witness for the C5 theorem on concrete data (backend whose only pack row
for the company is expired). -/
theorem loadUserData_no_active_pack_witness :
    loadUserData
        ⟨[sampleUser], [sampleCompany],
         [⟨"p1", "c1", "essential", 30, 29, 49, "expired"⟩], [], []⟩
        sampleCtx "u1" =
      ({ user := some sampleUser, company := some sampleCompany, pack := none,
         loading := false }, false) :=
  loadUserData_no_active_pack
    ⟨[sampleUser], [sampleCompany],
     [⟨"p1", "c1", "essential", 30, 29, 49, "expired"⟩], [], []⟩
    sampleCtx "u1" sampleUser sampleCompany (by decide) (by decide) (by decide)
    (by decide) rfl

/-- C3: for every sign-in call, with invalid credentials the backend's error is
propagated unchanged and no local entity state is modified; with valid
credentials the full load chain runs before the promise resolves, so the state
the caller's continuation sees has User and Company populated. -/
theorem signIn_spec (auth : String → String → Except String AuthUser)
    (db : Database) (s : CtxState) (email password : String) :
    (∀ e, auth email password = Except.error e →
      signIn auth db s email password = (s, Except.error e)) ∧
    (∀ (au : AuthUser) (u : User) (c : Company),
      auth email password = Except.ok au →
      findUser db au.id = Except.ok u →
      u.company_id ≠ "" →
      findCompany db u.company_id = Except.ok c →
      (signIn auth db s email password).fst = (loadUserData db s au.id).fst ∧
      (signIn auth db s email password).snd = Except.ok () ∧
      (signIn auth db s email password).fst.user = some u ∧
      (signIn auth db s email password).fst.company = some c) := by
  constructor
  · intro e he
    simp [signIn, he]
  · intro au u c ha hu hcid hc
    refine ⟨by simp [signIn, ha], by simp [signIn, ha], ?_, ?_⟩ <;>
      rcases hpa : findActivePack db u.company_id with e | pd <;>
        simp [signIn, ha, loadUserData, hu, hcid, hc, hpa]

/-- Witness for the C3 theorem: a concrete credential check, rejected and
accepted. -/
theorem signIn_spec_witness :
    signIn (fun e pw => if e = "a@b.co" ∧ pw = "pw" then Except.ok ⟨"u1"⟩
        else Except.error "Invalid login credentials") sampleDb sampleCtx
      "a@b.co" "bad" = (sampleCtx, Except.error "Invalid login credentials") ∧
    (signIn (fun e pw => if e = "a@b.co" ∧ pw = "pw" then Except.ok ⟨"u1"⟩
        else Except.error "Invalid login credentials") sampleDb sampleCtx
      "a@b.co" "pw").fst.user = some sampleUser :=
  ⟨(signIn_spec (fun e pw => if e = "a@b.co" ∧ pw = "pw" then Except.ok ⟨"u1"⟩
        else Except.error "Invalid login credentials") sampleDb sampleCtx
      "a@b.co" "bad").1 "Invalid login credentials" (by decide),
   ((signIn_spec (fun e pw => if e = "a@b.co" ∧ pw = "pw" then Except.ok ⟨"u1"⟩
        else Except.error "Invalid login credentials") sampleDb sampleCtx
      "a@b.co" "pw").2 ⟨"u1"⟩ sampleUser sampleCompany (by decide) (by decide)
      (by decide) (by decide)).2.2.1⟩

/-- C4: `signUp` issues (a) the auth-identity creation, then (b) the Company
insert with the given name and empty defaults, then (c) the User insert
referencing the auth identity and that company, in that order.  If (b) or (c)
fails after (a) succeeded, the error is surfaced unchanged with no rollback of
the auth identity and no context change.  On full success the load chain runs
and yields exactly the inserted User/Company pair. -/
theorem signUp_spec (db : Database) (s : CtxState) (au : AuthUser)
    (cid email password firstName lastName companyName : String) :
    (∀ e userInsertRes,
      signUp db s (Except.ok (some au)) (Except.error e) userInsertRes
          email password firstName lastName companyName =
        ([SignUpOp.createAuthIdentity email,
          SignUpOp.insertCompanyRow companyName "" [] "" [] "" ""],
         db, s, Except.error e) ∧
      SignUpOp.deleteAuthIdentity ∉
        (signUp db s (Except.ok (some au)) (Except.error e) userInsertRes
          email password firstName lastName companyName).1) ∧
    (∀ e,
      signUp db s (Except.ok (some au)) (Except.ok cid) (Except.error e)
          email password firstName lastName companyName =
        ([SignUpOp.createAuthIdentity email,
          SignUpOp.insertCompanyRow companyName "" [] "" [] "" "",
          SignUpOp.insertUserRow ⟨au.id, email, firstName, lastName, "user", cid⟩],
         { db with companies := db.companies ++ [mkNewCompany cid companyName] },
         s, Except.error e) ∧
      SignUpOp.deleteAuthIdentity ∉
        (signUp db s (Except.ok (some au)) (Except.ok cid) (Except.error e)
          email password firstName lastName companyName).1) ∧
    (cid ≠ "" →
      db.users.filter (fun x => x.id == au.id) = [] →
      db.companies.filter (fun x => x.id == cid) = [] →
      (signUp db s (Except.ok (some au)) (Except.ok cid) (Except.ok ())
          email password firstName lastName companyName).1 =
        [SignUpOp.createAuthIdentity email,
         SignUpOp.insertCompanyRow companyName "" [] "" [] "" "",
         SignUpOp.insertUserRow ⟨au.id, email, firstName, lastName, "user", cid⟩,
         SignUpOp.loadChain au.id] ∧
      (signUp db s (Except.ok (some au)) (Except.ok cid) (Except.ok ())
          email password firstName lastName companyName).2.2.2 = Except.ok () ∧
      (signUp db s (Except.ok (some au)) (Except.ok cid) (Except.ok ())
          email password firstName lastName companyName).2.2.1.user =
        some ⟨au.id, email, firstName, lastName, "user", cid⟩ ∧
      (signUp db s (Except.ok (some au)) (Except.ok cid) (Except.ok ())
          email password firstName lastName companyName).2.2.1.company =
        some (mkNewCompany cid companyName)) := by
  refine ⟨?_, ?_, ?_⟩
  · intro e userInsertRes
    constructor
    · rfl
    · simp [signUp]
  · intro e
    constructor
    · rfl
    · simp [signUp]
  · intro hcid hufresh hcfresh
    have hu : findUser
        { db with
          users := db.users ++ [⟨au.id, email, firstName, lastName, "user", cid⟩],
          companies := db.companies ++ [mkNewCompany cid companyName] }
        au.id = Except.ok ⟨au.id, email, firstName, lastName, "user", cid⟩ := by
      unfold findUser
      exact selectSingle_append_new _ db.users _ hufresh (by simp)
    have hc : findCompany
        { db with
          users := db.users ++ [⟨au.id, email, firstName, lastName, "user", cid⟩],
          companies := db.companies ++ [mkNewCompany cid companyName] }
        cid = Except.ok (mkNewCompany cid companyName) := by
      unfold findCompany
      exact selectSingle_append_new _ db.companies _ hcfresh (by simp [mkNewCompany])
    refine ⟨rfl, rfl, ?_, ?_⟩ <;>
      rcases hpa : findActivePack
          { db with
            users := db.users ++ [⟨au.id, email, firstName, lastName, "user", cid⟩],
            companies := db.companies ++ [mkNewCompany cid companyName] }
          cid with e | pd <;>
        simp [signUp, loadUserData, hu, hcid, hc, hpa]

/-- Witness for the C4 theorem: the failure path surfaces the backend error
with no rollback operation, and the success path yields the inserted pair. -/
theorem signUp_spec_witness :
    signUp sampleDb sampleCtx (Except.ok (some ⟨"u2"⟩)) (Except.error "dup")
        (Except.ok ()) "n@e.co" "pw" "New" "Nom" "Nails" =
      ([SignUpOp.createAuthIdentity "n@e.co",
        SignUpOp.insertCompanyRow "Nails" "" [] "" [] "" ""],
       sampleDb, sampleCtx, Except.error "dup") ∧
    (signUp sampleDb sampleCtx (Except.ok (some ⟨"u2"⟩)) (Except.ok "c2")
        (Except.ok ()) "n@e.co" "pw" "New" "Nom" "Nails").2.2.1.company =
      some (mkNewCompany "c2" "Nails") :=
  ⟨((signUp_spec sampleDb sampleCtx ⟨"u2"⟩ "c2" "n@e.co" "pw" "New" "Nom"
      "Nails").1 "dup" (Except.ok ())).1,
   ((signUp_spec sampleDb sampleCtx ⟨"u2"⟩ "c2" "n@e.co" "pw" "New" "Nom"
      "Nails").2.2 (by decide) (by decide) (by decide)).2.2.2⟩

theorem loadUserData_idem (db : Database) (s : CtxState) (uid : String) :
    (loadUserData db (loadUserData db s uid).fst uid).fst =
      (loadUserData db s uid).fst := by
  cases s with
  | mk user company pack loading =>
    rcases hu : findUser db uid with e | userData
    · simp [loadUserData, hu]
    · by_cases hcid : userData.company_id = ""
      · simp [loadUserData, hu, hcid]
      · rcases hc : findCompany db userData.company_id with e | companyData
        · simp [loadUserData, hu, hcid, hc]
        · rcases hpa : findActivePack db userData.company_id with e | packData <;>
            simp [loadUserData, hu, hcid, hc, hpa]

theorem loadUserData_fst_user (db : Database) (s : CtxState) (uid : String) :
    ((loadUserData db s uid).fst).user = s.user ∨
    ∃ v : User, findUser db uid = Except.ok v ∧
      ((loadUserData db s uid).fst).user = some v := by
  rcases hu : findUser db uid with e | userData
  · left
    simp [loadUserData, hu]
  · right
    refine ⟨userData, rfl, ?_⟩
    by_cases hcid : userData.company_id = ""
    · simp [loadUserData, hu, hcid]
    · rcases hc : findCompany db userData.company_id with e | companyData
      · simp [loadUserData, hu, hcid, hc]
      · rcases hpa : findActivePack db userData.company_id with e | packData <;>
          simp [loadUserData, hu, hcid, hc, hpa]

/-- C7: refresh is idempotent against an unchanged backend — running
`refreshData` twice yields the same User/Company/Pack snapshot as running it
once — and with no signed-in user it is a no-op. -/
theorem refreshData_idem (db : Database) (s : CtxState) :
    refreshData db (refreshData db s) = refreshData db s ∧
    (s.user = none → refreshData db s = s) := by
  constructor
  · rcases hsu : s.user with _ | u
    · simp [refreshData, hsu]
    · have hr : refreshData db s = (loadUserData db s u.id).fst := by
        simp [refreshData, hsu]
      rw [hr]
      rcases loadUserData_fst_user db s u.id with h | ⟨v, hv, h⟩
      · rw [hsu] at h
        simp only [refreshData, h]
        exact loadUserData_idem db s u.id
      · have hvid : v.id = u.id := findUser_ok_id hv
        simp only [refreshData, h, hvid]
        exact loadUserData_idem db s u.id
  · intro h
    simp [refreshData, h]

/-- Witness for the C7 theorem: idempotence on a concrete signed-in state and
no-op on the signed-out state. -/
theorem refreshData_idem_witness :
    refreshData sampleDb
        (refreshData sampleDb ⟨some sampleUser, none, none, false⟩) =
      refreshData sampleDb ⟨some sampleUser, none, none, false⟩ ∧
    refreshData sampleDb sampleCtx = sampleCtx :=
  ⟨(refreshData_idem sampleDb ⟨some sampleUser, none, none, false⟩).1,
   (refreshData_idem sampleDb sampleCtx).2 rfl⟩

theorem filter_map_update {α : Type} (p : α → Bool) (f : α → α) (l : List α)
    (hf : ∀ x, p (f x) = p x) :
    List.filter p (List.map (fun x => if p x then f x else x) l) =
      List.map f (List.filter p l) := by
  induction l with
  | nil => rfl
  | cons x xs ih =>
    by_cases hp : p x = true
    · simp [List.filter_cons, hp, hf, ih]
    · have hp' : p x = false := by
        revert hp
        cases p x <;> simp
      simp [List.filter_cons, hp', hf, ih]

theorem profileUpdateCompany_id (name bs : String) (servs : List String)
    (ta : String) (bc : List String) (logo tone vis : String) (c : Company) :
    (profileUpdateCompany name bs servs ta bc logo tone vis c).id = c.id := rfl

/-- C9: duplicate-freedom and round-trip of the services list.  Adding a
service that is empty after trimming or already present leaves the list
unchanged; adding preserves duplicate-freedom; and saving the profile with a
services list and reloading the Company through the load chain yields exactly
that ordered list (in particular `["Massage", "Facial"]`, which is
duplicate-free, round-trips). -/
theorem services_nodup_roundtrip :
    (∀ (services : List String) (ns : String),
      jsTrim ns = "" ∨ jsTrim ns ∈ services → handleAddService services ns = services) ∧
    (∀ (services : List String) (ns : String),
      services.Nodup → (handleAddService services ns).Nodup) ∧
    (∀ (db : Database) (s : CtxState) (uid : String) (u : User) (c : Company)
      (name bs : String) (servs : List String) (ta : String) (bc : List String)
      (logo tone vis : String),
      findUser db uid = Except.ok u →
      u.company_id = c.id →
      c.id ≠ "" →
      db.companies.filter (fun x => x.id == c.id) = [c] →
      (((loadUserData (profileSubmitUpdate db c.id name bs servs ta bc logo tone vis)
          s uid).fst).company).map Company.services = some servs) := by
  refine ⟨?_, ?_, ?_⟩
  · intro services ns h
    unfold handleAddService
    rcases h with h | h
    · rw [if_neg]
      intro hcontra
      exact hcontra.1 h
    · rw [if_neg]
      intro hcontra
      exact hcontra.2 h
  · intro services ns hnd
    unfold handleAddService
    split
    · rename_i h
      simpa [List.nodup_append] using ⟨hnd, h.2⟩
    · exact hnd
  · intro db s uid u c name bs servs ta bc logo tone vis hu hucid hcid hfilter
    have hpres : ∀ x : Company,
        ((profileUpdateCompany name bs servs ta bc logo tone vis x).id == c.id) =
          (x.id == c.id) := fun x => rfl
    have hfilter' :
        (profileSubmitUpdate db c.id name bs servs ta bc logo tone vis).companies.filter
            (fun x => x.id == c.id) =
          [profileUpdateCompany name bs servs ta bc logo tone vis c] := by
      show List.filter _ (List.map _ db.companies) = _
      rw [filter_map_update (fun x => x.id == c.id)
            (profileUpdateCompany name bs servs ta bc logo tone vis) db.companies hpres,
          hfilter]
      rfl
    have hu' : findUser (profileSubmitUpdate db c.id name bs servs ta bc logo tone vis)
        uid = Except.ok u := hu
    have hc' : findCompany (profileSubmitUpdate db c.id name bs servs ta bc logo tone vis)
        c.id = Except.ok (profileUpdateCompany name bs servs ta bc logo tone vis c) := by
      unfold findCompany selectSingle
      rw [hfilter']
    have hcid' : u.company_id ≠ "" := by rw [hucid]; exact hcid
    rcases hpa : findActivePack
        (profileSubmitUpdate db c.id name bs servs ta bc logo tone vis)
        c.id with e | pd <;>
      simp [loadUserData, hu', hcid', hucid, hcid, hc', hpa, profileUpdateCompany]

/-- Witness for the C9 theorem: a duplicate add is a no-op and saving
`["Massage", "Facial"]` round-trips through the backend and load chain. -/
theorem services_nodup_roundtrip_witness :
    handleAddService ["Massage"] "Massage" = ["Massage"] ∧
    (((loadUserData (profileSubmitUpdate sampleDb "c1" "Spa Zen" "spa-beaute"
        ["Massage", "Facial"] "aud" ["#000000", "#ffffff"] "" "pro" "minimal")
        sampleCtx "u1").fst).company).map Company.services =
      some ["Massage", "Facial"] :=
  ⟨services_nodup_roundtrip.1 ["Massage"] "Massage" (Or.inr (by decide)),
   services_nodup_roundtrip.2.2 sampleDb sampleCtx "u1" sampleUser sampleCompany
     "Spa Zen" "spa-beaute" ["Massage", "Facial"] "aud" ["#000000", "#ffffff"]
     "" "pro" "minimal" (by decide) rfl (by decide) (by decide)⟩
